import Mathlib

/-!
Shallow embedding of `src/YOLO System/ZCU102_HW/main.c`.

The program is a DMA transfer controller for a ZCU102 board: it looks up the
DMA device configuration, initializes the engine, copies a fixed image
(`hex_values`, `IMG_LENGTH` 32-bit words) into an aligned staging buffer
`TxBuffer`, flushes the data cache over the buffer, and then enters an
infinite loop that starts a memory-to-device simple transfer and polls
`XAxiDma_Busy` up to `POLL_TIMEOUT_COUNTER` times (with a 1 microsecond sleep
between checks).  Every failure path returns `XST_FAILURE`.

The embedding makes the hardware responses an explicit oracle and records the
observable behaviour of a run as a list of actions (console prints, buffer
writes, the cache flush, transfer starts, busy checks, sleeps).  The infinite
outer `while(1)` loop is run with explicit fuel (a number of loop iterations);
exhausting the fuel yields exit code `none` ("still running"), mirroring that
the loop itself contains no `break` or fall-through path.
-/

namespace ZCU102

/-- `#define IMG_LENGTH 173056` -/
def IMG_LENGTH : Nat := 173056

/-- `#define POLL_TIMEOUT_COUNTER 1000000U` -/
def POLL_TIMEOUT_COUNTER : Nat := 1000000

/-- `XST_SUCCESS` from the Xilinx BSP header `xstatus.h` (value `0L`). -/
def XST_SUCCESS : Int := 0

/-- `XST_FAILURE` from the Xilinx BSP header `xstatus.h` (value `1L`). -/
def XST_FAILURE : Int := 1

/-- DMA transfer direction; the program only ever uses
`XAXIDMA_DMA_TO_DEVICE` (memory to device). -/
inductive Direction where
  | dmaToDevice
  | deviceToDma
deriving DecidableEq, Repr

/-- The console messages `main` can print via `xil_printf`. -/
inductive Event where
  | welcome
  | configLookupFailed
  | initFailed (code : Int)
  | initSuccess (code : Int)
  | transferFailed (code : Int)
  | transferCompleted
  | transferTimedOut
  | imageSent
deriving DecidableEq, Repr

/-- One observable step of the program. -/
inductive Action where
  | print (e : Event)
  | write (i v : Nat)
  | flushRange (base lenBytes : Nat)
  | startTransfer (base lenBytes : Nat) (dir : Direction)
  | busyCheck (dir : Direction)
  | sleep (usec : Nat)
deriving DecidableEq, Repr

/-- Environment responses: whether `XAxiDma_LookupConfig` finds a
configuration, the status returned by `XAxiDma_CfgInitialize`, the status of
each `XAxiDma_SimpleTransfer` call (indexed by attempt number), the result of
each `XAxiDma_Busy` poll (attempt number, then check number within the
attempt), the compiled-in image table `hex_values` from `img2.h`, and the
address of the global `TxBuffer`. -/
structure Oracle where
  configFound : Bool
  initStatus : Int
  startStatus : Nat → Int
  busy : Nat → Nat → Bool
  hex_values : Nat → Nat
  txBufferAddr : Nat

/--
The inner poll loop of `main`:

    int TimeOut = POLL_TIMEOUT_COUNTER;
    while (TimeOut) {
        if (!XAxiDma_Busy(&AxiDma, XAXIDMA_DMA_TO_DEVICE)) {
            xil_printf("DMA transfer completed successfully\n");
            break;
        }
        TimeOut--;
        usleep(1U);
    }

`busy k` is the result of the k-th `XAxiDma_Busy` call of this attempt.
Returns the trace of the loop, the final value of `TimeOut`, and whether the
loop exited through the `break` (completion). -/
def pollLoop (busy : Nat → Bool) : Nat → Nat → List Action × Nat × Bool
  | 0, _ => ([], 0, false)
  | t + 1, k =>
    if busy k then
      let r := pollLoop busy t (k + 1)
      (Action.busyCheck Direction.dmaToDevice :: Action.sleep 1 :: r.1, r.2)
    else
      ([Action.busyCheck Direction.dmaToDevice, Action.print Event.transferCompleted],
        t + 1, true)

/--
The outer `while(1)` service loop of `main`, one constructor step per
iteration:

    while(1){
        status = XAxiDma_SimpleTransfer(&AxiDma, (UINTPTR)TxBuffer,
                                        IMG_LENGTH * sizeof(uint32_t),
                                        XAXIDMA_DMA_TO_DEVICE);
        if (status != XST_SUCCESS) { xil_printf(...); return XST_FAILURE; }
        <poll loop>
        if (TimeOut == 0) { xil_printf(...); return XST_FAILURE; }
        xil_printf("Image sent via DMA successfully\n");
    }

`fuel` bounds how many iterations we unfold; running out of fuel yields exit
code `none` (the program is still inside the loop).  `a` is the attempt
index. -/
def serviceLoop (o : Oracle) : Nat → Nat → List Action × Option Int
  | 0, _ => ([], none)
  | f + 1, a =>
    let st := Action.startTransfer o.txBufferAddr (IMG_LENGTH * 4) Direction.dmaToDevice
    if o.startStatus a ≠ XST_SUCCESS then
      ([st, Action.print (Event.transferFailed (o.startStatus a))], some XST_FAILURE)
    else
      let r := pollLoop (o.busy a) POLL_TIMEOUT_COUNTER 0
      if r.2.1 = 0 then
        (st :: r.1 ++ [Action.print Event.transferTimedOut], some XST_FAILURE)
      else
        let s := serviceLoop o f (a + 1)
        (st :: r.1 ++ Action.print Event.imageSent :: s.1, s.2)

/--
The population loop `for (int i = 0; i < IMG_LENGTH; i++) TxBuffer[i] =
hex_values[i];` as the list of write actions it performs, starting at index
`i` and performing `c` writes. -/
def copyFrom (hex : Nat → Nat) : Nat → Nat → List Action
  | _, 0 => []
  | i, c + 1 => Action.write i (hex i) :: copyFrom hex (i + 1) c

/-- The full population step: writes at indices `0 .. IMG_LENGTH - 1`. -/
def copyActions (hex : Nat → Nat) : List Action :=
  copyFrom hex 0 IMG_LENGTH

/--
`main` itself.  The early-return branches (`XAxiDma_LookupConfig` returning
NULL, `XAxiDma_CfgInitialize` returning a status other than `XST_SUCCESS`)
come before the buffer population; otherwise `main` populates the buffer,
flushes the cache over `IMG_LENGTH * sizeof(uint32_t)` bytes, and enters the
service loop.  The code after the service loop (an idle `while(1)` and
`return 0`) has no incoming control path: the service loop contains no
`break`, so it can only be left through one of its `return XST_FAILURE`
statements, which the embedding reflects by never producing that code. -/
def runMain (o : Oracle) (fuel : Nat) : List Action × Option Int :=
  if o.configFound = false then
    ([Action.print Event.welcome, Action.print Event.configLookupFailed], some XST_FAILURE)
  else if o.initStatus ≠ XST_SUCCESS then
    ([Action.print Event.welcome, Action.print (Event.initFailed o.initStatus)],
      some XST_FAILURE)
  else
    let pre := Action.print Event.welcome ::
      Action.print (Event.initSuccess o.initStatus) ::
      copyActions o.hex_values ++
      [Action.flushRange o.txBufferAddr (IMG_LENGTH * 4)]
    let s := serviceLoop o fuel 0
    (pre ++ s.1, s.2)

/-- The contents of `TxBuffer` (all cells uninitialized). -/
def emptyBuf : Nat → Option Nat := fun _ => none

/-- Replay the buffer writes recorded in a trace onto a buffer state. -/
def applyWrites : List Action → (Nat → Option Nat) → (Nat → Option Nat)
  | [], buf => buf
  | Action.write i v :: rest, buf =>
      applyWrites rest (fun j => if j = i then some v else buf j)
  | _ :: rest, buf => applyWrites rest buf

/-- Recognizer for buffer-write actions. -/
def isWrite : Action → Bool
  | Action.write _ _ => true
  | _ => false

/-- Recognizer for cache-flush actions. -/
def isFlush : Action → Bool
  | Action.flushRange _ _ => true
  | _ => false

/-- Recognizer for transfer-start actions. -/
def isStart : Action → Bool
  | Action.startTransfer _ _ _ => true
  | _ => false

/-- Recognizer for busy-poll actions. -/
def isBusyPoll : Action → Bool
  | Action.busyCheck _ => true
  | _ => false

/-- Number of `XAxiDma_Busy` calls recorded in a trace. -/
def countBusyChecks (tr : List Action) : Nat := tr.countP isBusyPoll

/-- The messages that report a fatal failure (each is immediately followed by
`return XST_FAILURE` in the source). -/
def isFatalEvent : Event → Bool
  | Event.configLookupFailed => true
  | Event.initFailed _ => true
  | Event.transferFailed _ => true
  | Event.transferTimedOut => true
  | _ => false

/-- A trace containing no fatal-failure report. -/
def noFatal (tr : List Action) : Prop :=
  ∀ e, isFatalEvent e = true → Action.print e ∉ tr

/-- Checks that a transfer-start action uses the staging buffer address
`addr`, the byte length `IMG_LENGTH * 4 = 692224`, and the memory-to-device
direction (non-start actions pass vacuously). -/
def startOk (addr : Nat) : Action → Bool
  | Action.startTransfer b l d =>
      b = addr && l = IMG_LENGTH * 4 && l = 692224 && d = Direction.dmaToDevice
  | _ => true

/-- Number of buffer writes recorded in a trace. -/
def countWrites (tr : List Action) : Nat := tr.countP isWrite

/-- Number of cache flushes recorded in a trace. -/
def countFlushes (tr : List Action) : Nat := tr.countP isFlush

/-- Number of transfer starts recorded in a trace. -/
def countStarts (tr : List Action) : Nat := tr.countP isStart

/-! ### Concrete oracles used by the witnesses -/

/-- Oracle whose DMA engine never stops reporting busy. -/
def oracleAllBusy : Oracle where
  configFound := true
  initStatus := XST_SUCCESS
  startStatus := fun _ => XST_SUCCESS
  busy := fun _ _ => true
  hex_values := fun i => i
  txBufferAddr := 0

/-- Oracle whose DMA engine completes instantly on every attempt. -/
def oracleInstant : Oracle where
  configFound := true
  initStatus := XST_SUCCESS
  startStatus := fun _ => XST_SUCCESS
  busy := fun _ _ => false
  hex_values := fun i => i
  txBufferAddr := 0

/-- Oracle whose DMA engine reports busy on the first check of every attempt
and not busy from the second check on. -/
def oracleBusyOnce : Oracle where
  configFound := true
  initStatus := XST_SUCCESS
  startStatus := fun _ => XST_SUCCESS
  busy := fun _ k => k == 0
  hex_values := fun i => i
  txBufferAddr := 0

/-- Oracle whose configuration lookup fails. -/
def oracleNoConfig : Oracle where
  configFound := false
  initStatus := XST_SUCCESS
  startStatus := fun _ => XST_SUCCESS
  busy := fun _ _ => false
  hex_values := fun i => i
  txBufferAddr := 0

/-! ### Helper lemmas about the poll loop -/

theorem pollLoop_all_busy (busy : Nat → Bool) (hb : ∀ j, busy j = true) :
    ∀ t k, pollLoop busy t k =
      ((List.replicate t [Action.busyCheck Direction.dmaToDevice, Action.sleep 1]).flatten,
        0, false)
  | 0, _ => by simp [pollLoop]
  | t + 1, k => by
    simp [pollLoop, hb k, pollLoop_all_busy busy hb t (k + 1), List.replicate_succ]

theorem countBusyChecks_replicate (t : Nat) :
    countBusyChecks
      ((List.replicate t [Action.busyCheck Direction.dmaToDevice, Action.sleep 1]).flatten)
      = t := by
  induction t with
  | zero => simp [countBusyChecks]
  | succ n ih =>
    rw [List.replicate_succ, List.flatten_cons]
    simp only [countBusyChecks, List.countP_append] at ih ⊢
    rw [ih]
    simp [List.countP_cons, List.countP_nil, isBusyPoll]
    omega

theorem pollLoop_break_first (busy : Nat → Bool) (t k : Nat) (hb : busy k = false) :
    pollLoop busy (t + 1) k =
      ([Action.busyCheck Direction.dmaToDevice, Action.print Event.transferCompleted],
        t + 1, true) := by
  simp [pollLoop, hb]

theorem pollLoop_early_exit (busy : Nat → Bool) :
    ∀ t k j, j < t → busy (k + j) = false →
      (pollLoop busy t k).2.2 = true ∧
      countBusyChecks (pollLoop busy t k).1 ≤ j + 1
  | 0, _, j, hj, _ => absurd hj (Nat.not_lt_zero j)
  | t + 1, k, j, hj, hb => by
    by_cases hk : busy k = true
    · have hj0 : j ≠ 0 := by
        rintro rfl
        rw [Nat.add_zero] at hb
        rw [hb] at hk
        exact Bool.false_ne_true hk
      obtain ⟨j', rfl⟩ := Nat.exists_eq_succ_of_ne_zero hj0
      have hb' : busy (k + 1 + j') = false := by
        have hkj : k + 1 + j' = k + (j' + 1) := by omega
        rw [hkj]; exact hb
      have ih := pollLoop_early_exit busy t (k + 1) j' (by omega) hb'
      refine ⟨?_, ?_⟩
      · simpa [pollLoop, hk] using ih.1
      · have hcount : countBusyChecks (pollLoop busy (t + 1) k).1 =
            countBusyChecks (pollLoop busy t (k + 1)).1 + 1 := by
          simp [pollLoop, hk, countBusyChecks, List.countP_cons, isBusyPoll]
        rw [hcount]
        omega
    · have hkf : busy k = false := by
        cases hbk : busy k
        · rfl
        · exact absurd hbk hk
      constructor
      · simp [pollLoop, hkf]
      · simp [pollLoop, hkf, countBusyChecks, List.countP_cons, List.countP_nil,
          isBusyPoll]

/-! ### Claim theorems C1 and C2 -/

/-- C1: if every `is_busy` check of an attempt reports busy, the controller
performs exactly `POLL_TIMEOUT_COUNTER = 1000000` busy checks, each followed
by the fixed 1-microsecond wait, and then reports the timeout and halts with
`XST_FAILURE` — not before the budget is exhausted and not after more than
1,000,000 checks (the trace is exactly the start action, 1,000,000
check/sleep pairs, and the timed-out report). -/
theorem C1_timeout_exact_budget (o : Oracle) (f a : Nat)
    (hst : o.startStatus a = XST_SUCCESS)
    (hb : ∀ j, o.busy a j = true) :
    serviceLoop o (f + 1) a =
      (Action.startTransfer o.txBufferAddr (IMG_LENGTH * 4) Direction.dmaToDevice ::
        (List.replicate POLL_TIMEOUT_COUNTER
          [Action.busyCheck Direction.dmaToDevice, Action.sleep 1]).flatten ++
        [Action.print Event.transferTimedOut],
        some XST_FAILURE) ∧
    countBusyChecks (serviceLoop o (f + 1) a).1 = POLL_TIMEOUT_COUNTER := by
  have hpoll := pollLoop_all_busy (o.busy a) hb POLL_TIMEOUT_COUNTER 0
  have htrace : serviceLoop o (f + 1) a =
      (Action.startTransfer o.txBufferAddr (IMG_LENGTH * 4) Direction.dmaToDevice ::
        (List.replicate POLL_TIMEOUT_COUNTER
          [Action.busyCheck Direction.dmaToDevice, Action.sleep 1]).flatten ++
        [Action.print Event.transferTimedOut],
        some XST_FAILURE) := by
    simp [serviceLoop, hst, hpoll]
  refine ⟨htrace, ?_⟩
  rw [htrace]
  simp only [countBusyChecks, List.countP_cons, List.countP_append]
  have h1 := countBusyChecks_replicate POLL_TIMEOUT_COUNTER
  simp only [countBusyChecks] at h1
  simp [isBusyPoll, h1]

theorem C1_timeout_exact_budget_witness :
    serviceLoop oracleAllBusy 1 0 =
      (Action.startTransfer oracleAllBusy.txBufferAddr (IMG_LENGTH * 4)
          Direction.dmaToDevice ::
        (List.replicate POLL_TIMEOUT_COUNTER
          [Action.busyCheck Direction.dmaToDevice, Action.sleep 1]).flatten ++
        [Action.print Event.transferTimedOut],
        some XST_FAILURE) ∧
    countBusyChecks (serviceLoop oracleAllBusy 1 0).1 = POLL_TIMEOUT_COUNTER :=
  C1_timeout_exact_budget oracleAllBusy 0 0 rfl (fun _ => rfl)

/-- C2: if `is_busy` is `false` on the very first check of an attempt, the
poll loop performs exactly that one check, reports completion, and leaves the
poll budget (`TimeOut`) undecremented at `POLL_TIMEOUT_COUNTER`; the service
loop then reports success and immediately continues with the next attempt.
And in general — for any attempt, with the results of the earlier checks
arbitrary (busy or not) — the instant a check returns `false` the loop
exits: if check `j` returns `false`, the loop completes after at most
`j + 1` checks rather than waiting out the remaining budget. -/
theorem C2_fast_path (o : Oracle) (f a : Nat) :
    (o.startStatus a = XST_SUCCESS → o.busy a 0 = false →
      pollLoop (o.busy a) POLL_TIMEOUT_COUNTER 0 =
        ([Action.busyCheck Direction.dmaToDevice, Action.print Event.transferCompleted],
          POLL_TIMEOUT_COUNTER, true) ∧
      serviceLoop o (f + 1) a =
        (Action.startTransfer o.txBufferAddr (IMG_LENGTH * 4) Direction.dmaToDevice ::
          Action.busyCheck Direction.dmaToDevice ::
          Action.print Event.transferCompleted ::
          Action.print Event.imageSent :: (serviceLoop o f (a + 1)).1,
          (serviceLoop o f (a + 1)).2)) ∧
    (∀ j, j < POLL_TIMEOUT_COUNTER → o.busy a j = false →
      (pollLoop (o.busy a) POLL_TIMEOUT_COUNTER 0).2.2 = true ∧
      countBusyChecks (pollLoop (o.busy a) POLL_TIMEOUT_COUNTER 0).1 ≤ j + 1) := by
  constructor
  · intro hst hb
    have hN : POLL_TIMEOUT_COUNTER = 999999 + 1 := rfl
    have hpoll : pollLoop (o.busy a) POLL_TIMEOUT_COUNTER 0 =
        ([Action.busyCheck Direction.dmaToDevice, Action.print Event.transferCompleted],
          POLL_TIMEOUT_COUNTER, true) := by
      rw [hN]
      exact pollLoop_break_first (o.busy a) 999999 0 hb
    have hpoll2 : pollLoop (o.busy a) 1000000 0 =
        ([Action.busyCheck Direction.dmaToDevice, Action.print Event.transferCompleted],
          1000000, true) := hpoll
    refine ⟨hpoll, ?_⟩
    simp [serviceLoop, hst, hpoll, hpoll2, POLL_TIMEOUT_COUNTER]
  · intro j hj hbj
    exact pollLoop_early_exit (o.busy a) POLL_TIMEOUT_COUNTER 0 j hj
      (by simpa using hbj)

theorem C2_fast_path_witness :
    (pollLoop (oracleInstant.busy 0) POLL_TIMEOUT_COUNTER 0 =
      ([Action.busyCheck Direction.dmaToDevice, Action.print Event.transferCompleted],
        POLL_TIMEOUT_COUNTER, true) ∧
    serviceLoop oracleInstant 1 0 =
      (Action.startTransfer oracleInstant.txBufferAddr (IMG_LENGTH * 4)
          Direction.dmaToDevice ::
        Action.busyCheck Direction.dmaToDevice ::
        Action.print Event.transferCompleted ::
        Action.print Event.imageSent :: (serviceLoop oracleInstant 0 1).1,
        (serviceLoop oracleInstant 0 1).2)) ∧
    ((pollLoop (oracleBusyOnce.busy 0) POLL_TIMEOUT_COUNTER 0).2.2 = true ∧
      countBusyChecks (pollLoop (oracleBusyOnce.busy 0) POLL_TIMEOUT_COUNTER 0).1 ≤ 1 + 1) :=
  ⟨(C2_fast_path oracleInstant 0 0).1 rfl rfl,
    (C2_fast_path oracleBusyOnce 0 0).2 1 (by decide) rfl⟩

/-! ### Fatal reports terminate the run -/

theorem noFatal_nil : noFatal [] := by
  intro e _ h
  exact absurd h (List.not_mem_nil _)

theorem noFatal_cons_of (a : Action) (tr : List Action)
    (ha : ∀ e, isFatalEvent e = true → a ≠ Action.print e) (h : noFatal tr) :
    noFatal (a :: tr) := by
  intro e he hmem
  rcases List.mem_cons.mp hmem with h1 | h1
  · exact ha e he h1.symm
  · exact h e he h1

theorem noFatal_of_cons (a : Action) (tr : List Action) (h : noFatal (a :: tr)) :
    noFatal tr :=
  fun e he hm => h e he (List.mem_cons_of_mem a hm)

theorem noFatal_append (l1 l2 : List Action) (h1 : noFatal l1) (h2 : noFatal l2) :
    noFatal (l1 ++ l2) := by
  intro e he hmem
  rcases List.mem_append.mp hmem with h | h
  · exact h1 e he h
  · exact h2 e he h

theorem pollLoop_noFatal (busy : Nat → Bool) :
    ∀ t k, noFatal (pollLoop busy t k).1
  | 0, _ => by
    intro e he hmem
    simp [pollLoop] at hmem
  | t + 1, k => by
    intro e he hmem
    by_cases hk : busy k = true
    · simp only [pollLoop, hk, if_true, List.mem_cons] at hmem
      rcases hmem with h | h | h
      · exact absurd h (by simp)
      · exact absurd h (by simp)
      · exact pollLoop_noFatal busy t (k + 1) e he h
    · have hkf : busy k = false := by
        cases hbk : busy k
        · rfl
        · exact absurd hbk hk
      simp only [pollLoop, hkf, Bool.false_eq_true, if_false, List.mem_cons,
        List.mem_singleton] at hmem
      rcases hmem with h | h | h
      · exact absurd h (by simp)
      · rw [Action.print.injEq] at h
        rw [h] at he
        simp [isFatalEvent] at he
      · exact absurd h (List.not_mem_nil _)

theorem copyFrom_noFatal (hex : Nat → Nat) :
    ∀ c i, noFatal (copyFrom hex i c)
  | 0, i => by
    intro e he hmem
    simp [copyFrom] at hmem
  | c + 1, i => by
    intro e he hmem
    simp only [copyFrom, List.mem_cons] at hmem
    rcases hmem with h | h
    · exact absurd h (by simp)
    · exact copyFrom_noFatal hex c (i + 1) e he h

/-- Structure of one service-loop run: either the fuel runs out with the loop
still going (exit code `none`, no fatal report in the trace), or the trace
ends in a single fatal report and the exit code is `XST_FAILURE`. -/
theorem serviceLoop_spec (o : Oracle) :
    ∀ f a,
      ((serviceLoop o f a).2 = none ∧ noFatal (serviceLoop o f a).1) ∨
      (∃ pre e, (serviceLoop o f a).1 = pre ++ [Action.print e] ∧
        (serviceLoop o f a).2 = some XST_FAILURE ∧ noFatal pre ∧
        isFatalEvent e = true)
  | 0, a => Or.inl ⟨rfl, noFatal_nil⟩
  | f + 1, a => by
    by_cases hst : o.startStatus a = XST_SUCCESS
    · by_cases hto : (pollLoop (o.busy a) POLL_TIMEOUT_COUNTER 0).2.1 = 0
      · right
        refine ⟨Action.startTransfer o.txBufferAddr (IMG_LENGTH * 4)
            Direction.dmaToDevice :: (pollLoop (o.busy a) POLL_TIMEOUT_COUNTER 0).1,
          Event.transferTimedOut, ?_, ?_, ?_, rfl⟩
        · simp [serviceLoop, hst, hto]
        · simp [serviceLoop, hst, hto]
        · exact noFatal_cons_of _ _ (by intro e he; simp)
            (pollLoop_noFatal (o.busy a) POLL_TIMEOUT_COUNTER 0)
      · rcases serviceLoop_spec o f (a + 1) with ⟨hrc, hnf⟩ | ⟨pre, e, htr, hrc, hnf, hfe⟩
        · left
          constructor
          · simp [serviceLoop, hst, hto, hrc]
          · have htrace : (serviceLoop o (f + 1) a).1 =
                Action.startTransfer o.txBufferAddr (IMG_LENGTH * 4)
                  Direction.dmaToDevice ::
                (pollLoop (o.busy a) POLL_TIMEOUT_COUNTER 0).1 ++
                Action.print Event.imageSent :: (serviceLoop o f (a + 1)).1 := by
              simp [serviceLoop, hst, hto]
            rw [htrace]
            refine noFatal_cons_of _ _ (by intro e he; simp) ?_
            refine noFatal_append _ _
              (pollLoop_noFatal (o.busy a) POLL_TIMEOUT_COUNTER 0) ?_
            exact noFatal_cons_of _ _
              (by intro e he h; rw [Action.print.injEq] at h; rw [← h] at he;
                  simp [isFatalEvent] at he) hnf
        · right
          refine ⟨Action.startTransfer o.txBufferAddr (IMG_LENGTH * 4)
              Direction.dmaToDevice ::
            (pollLoop (o.busy a) POLL_TIMEOUT_COUNTER 0).1 ++
            Action.print Event.imageSent :: pre, e, ?_, ?_, ?_, hfe⟩
          · simp [serviceLoop, hst, hto, htr, List.append_assoc]
          · simp [serviceLoop, hst, hto, hrc]
          · refine noFatal_cons_of _ _ (by intro e' he'; simp) ?_
            refine noFatal_append _ _
              (pollLoop_noFatal (o.busy a) POLL_TIMEOUT_COUNTER 0) ?_
            exact noFatal_cons_of _ _
              (by intro e' he' h; rw [Action.print.injEq] at h; rw [← h] at he';
                  simp [isFatalEvent] at he') hnf
    · right
      refine ⟨[Action.startTransfer o.txBufferAddr (IMG_LENGTH * 4)
          Direction.dmaToDevice], Event.transferFailed (o.startStatus a),
        ?_, ?_, ?_, rfl⟩
      · simp [serviceLoop, hst]
      · simp [serviceLoop, hst]
      · exact noFatal_cons_of _ _ (by intro e he; simp) noFatal_nil

/-- Structure of a whole run of `main`: either no fatal report occurred (exit
code `none`), or the trace ends in a single fatal report and the exit code is
`XST_FAILURE`. -/
theorem runMain_spec (o : Oracle) (fuel : Nat) :
    ((runMain o fuel).2 = none ∧ noFatal (runMain o fuel).1) ∨
    (∃ pre e, (runMain o fuel).1 = pre ++ [Action.print e] ∧
      (runMain o fuel).2 = some XST_FAILURE ∧ noFatal pre ∧
      isFatalEvent e = true) := by
  by_cases hc : o.configFound = false
  · right
    refine ⟨[Action.print Event.welcome], Event.configLookupFailed, ?_, ?_, ?_, rfl⟩
    · simp [runMain, hc]
    · simp [runMain, hc]
    · refine noFatal_cons_of _ _ ?_ noFatal_nil
      intro e he h
      rw [Action.print.injEq] at h
      rw [← h] at he
      simp [isFatalEvent] at he
  · by_cases hi : o.initStatus = XST_SUCCESS
    · have hpre : noFatal (Action.print Event.welcome ::
          Action.print (Event.initSuccess o.initStatus) ::
          copyActions o.hex_values ++
          [Action.flushRange o.txBufferAddr (IMG_LENGTH * 4)]) := by
        refine noFatal_cons_of _ _
          (by intro e he h; rw [Action.print.injEq] at h; rw [← h] at he;
              simp [isFatalEvent] at he) ?_
        refine noFatal_cons_of _ _
          (by intro e he h; rw [Action.print.injEq] at h; rw [← h] at he;
              simp [isFatalEvent] at he) ?_
        refine noFatal_append _ _ (copyFrom_noFatal o.hex_values IMG_LENGTH 0) ?_
        exact noFatal_cons_of _ _ (by intro e he; simp) noFatal_nil
      rcases serviceLoop_spec o fuel 0 with ⟨hrc, hnf⟩ | ⟨pre, e, htr, hrc, hnf, hfe⟩
      · left
        constructor
        · simp [runMain, hc, hi, hrc]
        · have htrace : (runMain o fuel).1 =
              (Action.print Event.welcome ::
                Action.print (Event.initSuccess o.initStatus) ::
                copyActions o.hex_values ++
                [Action.flushRange o.txBufferAddr (IMG_LENGTH * 4)]) ++
              (serviceLoop o fuel 0).1 := by
            simp [runMain, hc, hi]
          rw [htrace]
          exact noFatal_append _ _ hpre hnf
      · right
        refine ⟨(Action.print Event.welcome ::
            Action.print (Event.initSuccess o.initStatus) ::
            copyActions o.hex_values ++
            [Action.flushRange o.txBufferAddr (IMG_LENGTH * 4)]) ++ pre, e,
          ?_, ?_, ?_, hfe⟩
        · have h2 : (runMain o fuel).1 =
              (Action.print Event.welcome ::
                Action.print (Event.initSuccess o.initStatus) ::
                copyActions o.hex_values ++
                [Action.flushRange o.txBufferAddr (IMG_LENGTH * 4)]) ++
              (serviceLoop o fuel 0).1 := by
            simp [runMain, hc, hi]
          rw [h2, htr, ← List.append_assoc]
        · simp [runMain, hc, hi, hrc]
        · exact noFatal_append _ _ hpre hnf
    · right
      refine ⟨[Action.print Event.welcome], Event.initFailed o.initStatus,
        ?_, ?_, ?_, rfl⟩
      · simp [runMain, hc, hi]
      · simp [runMain, hc, hi]
      · refine noFatal_cons_of _ _ ?_ noFatal_nil
        intro e he h
        rw [Action.print.injEq] at h
        rw [← h] at he
        simp [isFatalEvent] at he

/-- Splitting a trace that ends in its unique print at a fatal print: the
fatal print can only be that last element, so nothing follows it. -/
theorem fatal_split_last (e : Event) :
    ∀ (pre l1 : List Action) (e' : Event) (l2 : List Action),
      noFatal pre → isFatalEvent e' = true →
      pre ++ [Action.print e] = l1 ++ Action.print e' :: l2 → l2 = []
  | [], l1, e', l2, _, _, heq => by
    have hlen : 1 = l1.length + (l2.length + 1) := by
      simpa using congrArg List.length heq
    have h2 : l2.length = 0 := by omega
    exact List.eq_nil_of_length_eq_zero h2
  | p :: pre, l1, e', l2, hnf, hfe, heq => by
    cases l1 with
    | nil =>
      rw [List.cons_append, List.nil_append] at heq
      have hp : p = Action.print e' := (List.cons.injEq _ _ _ _ ▸ heq).1
      exact absurd (hp ▸ List.mem_cons_self p pre) (fun hm => hnf e' hfe hm)
    | cons q l1' =>
      rw [List.cons_append, List.cons_append] at heq
      have htl : pre ++ [Action.print e] = l1' ++ Action.print e' :: l2 :=
        (List.cons.injEq _ _ _ _ ▸ heq).2
      exact fatal_split_last e pre l1' e' l2 (noFatal_of_cons p pre hnf) hfe htl

/-- C3: every failure — configuration-lookup failure, initialization failure,
transfer-start rejection, and poll-timeout exhaustion — is terminal: once any
of these events is reported, nothing at all follows it in the run's trace (in
particular no further transfer start), and the process exits with
`XST_FAILURE`. -/
theorem C3_fatal_halts_service (o : Oracle) (fuel : Nat) (e : Event)
    (l1 l2 : List Action) (he : isFatalEvent e = true)
    (hsplit : (runMain o fuel).1 = l1 ++ Action.print e :: l2) :
    l2 = [] ∧ (runMain o fuel).2 = some XST_FAILURE := by
  rcases runMain_spec o fuel with ⟨_, hnf⟩ | ⟨pre, e', htr, hrc, hnf, _⟩
  · have hmem : Action.print e ∈ (runMain o fuel).1 := by
      rw [hsplit]
      exact List.mem_append_right l1 (List.mem_cons_self _ _)
    exact absurd hmem (hnf e he)
  · rw [htr] at hsplit
    exact ⟨fatal_split_last e' pre l1 e l2 hnf he hsplit, hrc⟩

theorem C3_fatal_halts_service_witness :
    ([] : List Action) = [] ∧ (runMain oracleNoConfig 1).2 = some XST_FAILURE :=
  C3_fatal_halts_service oracleNoConfig 1 Event.configLookupFailed
    [Action.print Event.welcome] [] rfl rfl

/-! ### Buffer population and immutability -/

theorem applyWrites_copyFrom (hex : Nat → Nat) :
    ∀ c i buf j, applyWrites (copyFrom hex i c) buf j =
      if i ≤ j ∧ j < i + c then some (hex j) else buf j
  | 0, i, buf, j => by
    rw [show copyFrom hex i 0 = [] from rfl]
    rw [show applyWrites [] buf = buf from rfl]
    rw [if_neg (by omega)]
  | c + 1, i, buf, j => by
    rw [show copyFrom hex i (c + 1) =
      Action.write i (hex i) :: copyFrom hex (i + 1) c from rfl]
    rw [show applyWrites (Action.write i (hex i) :: copyFrom hex (i + 1) c) buf =
      applyWrites (copyFrom hex (i + 1) c)
        (fun j => if j = i then some (hex i) else buf j) from rfl]
    rw [applyWrites_copyFrom hex c (i + 1) _ j]
    by_cases hA : i + 1 ≤ j ∧ j < i + 1 + c
    · rw [if_pos hA, if_pos (by omega)]
    · rw [if_neg hA]
      by_cases hB : j = i
      · rw [if_pos hB, if_pos (by omega), hB]
      · rw [if_neg hB, if_neg (by omega)]

/-- C4: the population step writes the source payload word-for-word: for
every index `i` below `IMG_LENGTH`, replaying the population writes leaves
the staging buffer holding `hex_values i` at position `i`. -/
theorem C4_payload_fidelity (hex : Nat → Nat) (i : Nat) (h : i < IMG_LENGTH) :
    applyWrites (copyActions hex) emptyBuf i = some (hex i) := by
  rw [copyActions, applyWrites_copyFrom hex IMG_LENGTH 0 emptyBuf i,
    if_pos ⟨Nat.zero_le i, by omega⟩]

theorem C4_payload_fidelity_witness :
    0 < IMG_LENGTH ∧
    applyWrites (copyActions (fun n => n + 7)) emptyBuf 0 = some 7 :=
  ⟨by decide, C4_payload_fidelity (fun n => n + 7) 0 (by decide)⟩

theorem copyFrom_countP_zero (hex : Nat → Nat) (p : Action → Bool)
    (hw : ∀ i v, p (Action.write i v) = false) :
    ∀ c i, (copyFrom hex i c).countP p = 0
  | 0, i => by simp [copyFrom]
  | c + 1, i => by
    rw [show copyFrom hex i (c + 1) =
      Action.write i (hex i) :: copyFrom hex (i + 1) c from rfl]
    rw [List.countP_cons, copyFrom_countP_zero hex p hw c (i + 1), hw]
    simp

theorem pollLoop_countP_zero (busy : Nat → Bool) (p : Action → Bool)
    (hbc : ∀ d, p (Action.busyCheck d) = false)
    (hsl : ∀ u, p (Action.sleep u) = false)
    (hpr : ∀ e, p (Action.print e) = false) :
    ∀ t k, ((pollLoop busy t k).1).countP p = 0
  | 0, _ => by simp [pollLoop]
  | t + 1, k => by
    by_cases hk : busy k = true
    · simp only [pollLoop, hk, if_true]
      rw [List.countP_cons, List.countP_cons,
        pollLoop_countP_zero busy p hbc hsl hpr t (k + 1), hbc, hsl]
      simp
    · have hkf : busy k = false := by
        cases hbk : busy k
        · rfl
        · exact absurd hbk hk
      simp only [pollLoop, hkf, Bool.false_eq_true, if_false]
      rw [List.countP_cons, List.countP_cons, List.countP_nil, hbc, hpr]
      simp

theorem serviceLoop_countP_zero (o : Oracle) (p : Action → Bool)
    (hpr : ∀ e, p (Action.print e) = false)
    (hsta : ∀ b l d, p (Action.startTransfer b l d) = false)
    (hbc : ∀ d, p (Action.busyCheck d) = false)
    (hsl : ∀ u, p (Action.sleep u) = false) :
    ∀ f a, ((serviceLoop o f a).1).countP p = 0
  | 0, _ => by simp [serviceLoop]
  | f + 1, a => by
    have hpoll := pollLoop_countP_zero (o.busy a) p hbc hsl hpr POLL_TIMEOUT_COUNTER 0
    by_cases hst : o.startStatus a = XST_SUCCESS
    · by_cases hto : (pollLoop (o.busy a) POLL_TIMEOUT_COUNTER 0).2.1 = 0
      · have htr : (serviceLoop o (f + 1) a).1 =
            Action.startTransfer o.txBufferAddr (IMG_LENGTH * 4)
              Direction.dmaToDevice ::
            (pollLoop (o.busy a) POLL_TIMEOUT_COUNTER 0).1 ++
            [Action.print Event.transferTimedOut] := by
          simp [serviceLoop, hst, hto]
        rw [htr]
        simp [List.countP_cons, List.countP_append, hpoll, hsta, hpr]
      · have hrec := serviceLoop_countP_zero o p hpr hsta hbc hsl f (a + 1)
        have htr : (serviceLoop o (f + 1) a).1 =
            Action.startTransfer o.txBufferAddr (IMG_LENGTH * 4)
              Direction.dmaToDevice ::
            (pollLoop (o.busy a) POLL_TIMEOUT_COUNTER 0).1 ++
            Action.print Event.imageSent :: (serviceLoop o f (a + 1)).1 := by
          simp [serviceLoop, hst, hto]
        rw [htr]
        simp [List.countP_cons, List.countP_append, hpoll, hsta, hpr, hrec]
    · have htr : (serviceLoop o (f + 1) a).1 =
          [Action.startTransfer o.txBufferAddr (IMG_LENGTH * 4)
              Direction.dmaToDevice,
            Action.print (Event.transferFailed (o.startStatus a))] := by
        simp [serviceLoop, hst]
      rw [htr]
      simp [List.countP_cons, hsta, hpr]

theorem serviceLoop_no_writes (o : Oracle) (f a : Nat) :
    countWrites (serviceLoop o f a).1 = 0 :=
  serviceLoop_countP_zero o isWrite (fun _ => rfl) (fun _ _ _ => rfl)
    (fun _ => rfl) (fun _ => rfl) f a

theorem serviceLoop_no_flushes (o : Oracle) (f a : Nat) :
    countFlushes (serviceLoop o f a).1 = 0 :=
  serviceLoop_countP_zero o isFlush (fun _ => rfl) (fun _ _ _ => rfl)
    (fun _ => rfl) (fun _ => rfl) f a

theorem applyWrites_of_no_write :
    ∀ (tr : List Action) (buf : Nat → Option Nat), countWrites tr = 0 →
      applyWrites tr buf = buf
  | [], _, _ => rfl
  | a :: tr, buf, h => by
    cases a with
    | write i v =>
      rw [countWrites, List.countP_cons] at h
      simp [isWrite] at h
    | print e =>
      rw [show applyWrites (Action.print e :: tr) buf = applyWrites tr buf from rfl]
      refine applyWrites_of_no_write tr buf ?_
      rw [countWrites, List.countP_cons] at h
      simp only [isWrite] at h
      simpa [countWrites] using h
    | flushRange b l =>
      rw [show applyWrites (Action.flushRange b l :: tr) buf =
        applyWrites tr buf from rfl]
      refine applyWrites_of_no_write tr buf ?_
      rw [countWrites, List.countP_cons] at h
      simp only [isWrite] at h
      simpa [countWrites] using h
    | startTransfer b l d =>
      rw [show applyWrites (Action.startTransfer b l d :: tr) buf =
        applyWrites tr buf from rfl]
      refine applyWrites_of_no_write tr buf ?_
      rw [countWrites, List.countP_cons] at h
      simp only [isWrite] at h
      simpa [countWrites] using h
    | busyCheck d =>
      rw [show applyWrites (Action.busyCheck d :: tr) buf = applyWrites tr buf from rfl]
      refine applyWrites_of_no_write tr buf ?_
      rw [countWrites, List.countP_cons] at h
      simp only [isWrite] at h
      simpa [countWrites] using h
    | sleep u =>
      rw [show applyWrites (Action.sleep u :: tr) buf = applyWrites tr buf from rfl]
      refine applyWrites_of_no_write tr buf ?_
      rw [countWrites, List.countP_cons] at h
      simp only [isWrite] at h
      simpa [countWrites] using h

theorem applyWrites_append :
    ∀ (l1 l2 : List Action) (buf : Nat → Option Nat),
      applyWrites (l1 ++ l2) buf = applyWrites l2 (applyWrites l1 buf)
  | [], _, _ => rfl
  | a :: l1, l2, buf => by
    cases a with
    | write i v => exact applyWrites_append l1 l2 _
    | print e => exact applyWrites_append l1 l2 buf
    | flushRange b l => exact applyWrites_append l1 l2 buf
    | startTransfer b l d => exact applyWrites_append l1 l2 buf
    | busyCheck d => exact applyWrites_append l1 l2 buf
    | sleep u => exact applyWrites_append l1 l2 buf

/-- C6: the staging buffer is never mutated after the initial population: the
service loop's trace contains no buffer write at all, replaying it over any
buffer state is the identity, and the final buffer contents of a whole run do
not depend on how many transfer iterations were executed (every repeated
attempt therefore sends the identical payload). -/
theorem C6_buffer_immutable_after_population (o : Oracle) (fuel a : Nat) :
    countWrites (serviceLoop o fuel a).1 = 0 ∧
    (∀ buf, applyWrites (serviceLoop o fuel a).1 buf = buf) ∧
    applyWrites (runMain o fuel).1 emptyBuf = applyWrites (runMain o 0).1 emptyBuf := by
  refine ⟨serviceLoop_no_writes o fuel a, ?_, ?_⟩
  · intro buf
    exact applyWrites_of_no_write _ buf (serviceLoop_no_writes o fuel a)
  · by_cases hc : o.configFound = false
    · simp [runMain, hc]
    · by_cases hi : o.initStatus = XST_SUCCESS
      · have h2 : ∀ g : Nat, (runMain o g).1 =
            (Action.print Event.welcome ::
              Action.print (Event.initSuccess o.initStatus) ::
              copyActions o.hex_values ++
              [Action.flushRange o.txBufferAddr (IMG_LENGTH * 4)]) ++
            (serviceLoop o g 0).1 := by
          intro g
          simp [runMain, hc, hi]
        rw [h2 fuel, h2 0]
        simp only [applyWrites_append]
        rw [applyWrites_of_no_write _ _ (serviceLoop_no_writes o fuel 0),
          applyWrites_of_no_write _ _ (serviceLoop_no_writes o 0 0)]
      · simp [runMain, hc, hi]

/-! ### Cache flush ordering -/

theorem copyFrom_no_flushes (hex : Nat → Nat) (c i : Nat) :
    (copyFrom hex i c).countP isFlush = 0 :=
  copyFrom_countP_zero hex isFlush (fun _ _ => rfl) c i

theorem copyFrom_no_starts (hex : Nat → Nat) (c i : Nat) :
    (copyFrom hex i c).countP isStart = 0 :=
  copyFrom_countP_zero hex isStart (fun _ _ => rfl) c i

/-- C5: in every run that reaches the transfer loop, the cache flush over the
staging buffer is performed exactly once, and the trace splits around it:
everything before it contains no transfer start (flush happens before the
first `start_transfer`) and everything after it contains no flush and no
buffer write (population is complete before the flush and the flush is never
repeated in later loop iterations). -/
theorem C5_flush_once_before_start (o : Oracle) (fuel : Nat)
    (hc : o.configFound = true) (hi : o.initStatus = XST_SUCCESS) :
    countFlushes (runMain o fuel).1 = 1 ∧
    ∃ l1 l2, (runMain o fuel).1 =
        l1 ++ Action.flushRange o.txBufferAddr (IMG_LENGTH * 4) :: l2 ∧
      countFlushes l1 = 0 ∧ countFlushes l2 = 0 ∧
      countWrites l2 = 0 ∧ countStarts l1 = 0 := by
  have hc' : ¬o.configFound = false := by rw [hc]; simp
  have htr : (runMain o fuel).1 =
      (Action.print Event.welcome ::
        Action.print (Event.initSuccess o.initStatus) ::
        copyActions o.hex_values) ++
      Action.flushRange o.txBufferAddr (IMG_LENGTH * 4) ::
      (serviceLoop o fuel 0).1 := by
    simp [runMain, hc', hi]
  have h1 : countFlushes (Action.print Event.welcome ::
      Action.print (Event.initSuccess o.initStatus) ::
      copyActions o.hex_values) = 0 := by
    rw [countFlushes, List.countP_cons, List.countP_cons, copyActions,
      copyFrom_no_flushes o.hex_values IMG_LENGTH 0]
    simp [isFlush]
  have h2 : countStarts (Action.print Event.welcome ::
      Action.print (Event.initSuccess o.initStatus) ::
      copyActions o.hex_values) = 0 := by
    rw [countStarts, List.countP_cons, List.countP_cons, copyActions,
      copyFrom_no_starts o.hex_values IMG_LENGTH 0]
    simp [isStart]
  have h3 := serviceLoop_no_flushes o fuel 0
  have h4 := serviceLoop_no_writes o fuel 0
  refine ⟨?_, _, _, htr, h1, h3, h4, h2⟩
  rw [htr, countFlushes, List.countP_append]
  rw [countFlushes] at h1 h3
  rw [h1, List.countP_cons, h3]
  simp [isFlush]

theorem C5_flush_once_before_start_witness :
    countFlushes (runMain oracleInstant 0).1 = 1 ∧
    ∃ l1 l2, (runMain oracleInstant 0).1 =
        l1 ++ Action.flushRange oracleInstant.txBufferAddr (IMG_LENGTH * 4) :: l2 ∧
      countFlushes l1 = 0 ∧ countFlushes l2 = 0 ∧
      countWrites l2 = 0 ∧ countStarts l1 = 0 :=
  C5_flush_once_before_start oracleInstant 0 rfl rfl

/-! ### Transfer-start arguments -/

theorem copyFrom_all_of (hex : Nat → Nat) (p : Action → Bool)
    (hw : ∀ i v, p (Action.write i v) = true) :
    ∀ c i, ((copyFrom hex i c).all p) = true
  | 0, i => by simp [copyFrom]
  | c + 1, i => by
    rw [show copyFrom hex i (c + 1) =
      Action.write i (hex i) :: copyFrom hex (i + 1) c from rfl]
    rw [List.all_cons, hw, copyFrom_all_of hex p hw c (i + 1)]
    rfl

theorem pollLoop_all_of (busy : Nat → Bool) (p : Action → Bool)
    (hbc : ∀ d, p (Action.busyCheck d) = true)
    (hsl : ∀ u, p (Action.sleep u) = true)
    (hpr : ∀ e, p (Action.print e) = true) :
    ∀ t k, (((pollLoop busy t k).1).all p) = true
  | 0, _ => by simp [pollLoop]
  | t + 1, k => by
    by_cases hk : busy k = true
    · simp only [pollLoop, hk, if_true]
      rw [List.all_cons, List.all_cons,
        pollLoop_all_of busy p hbc hsl hpr t (k + 1), hbc, hsl]
      rfl
    · have hkf : busy k = false := by
        cases hbk : busy k
        · rfl
        · exact absurd hbk hk
      simp only [pollLoop, hkf, Bool.false_eq_true, if_false]
      rw [List.all_cons, List.all_cons, List.all_nil, hbc, hpr]
      rfl

theorem serviceLoop_all_of (o : Oracle) (p : Action → Bool)
    (hpr : ∀ e, p (Action.print e) = true)
    (hsta : p (Action.startTransfer o.txBufferAddr (IMG_LENGTH * 4)
      Direction.dmaToDevice) = true)
    (hbc : ∀ d, p (Action.busyCheck d) = true)
    (hsl : ∀ u, p (Action.sleep u) = true) :
    ∀ f a, (((serviceLoop o f a).1).all p) = true
  | 0, _ => by simp [serviceLoop]
  | f + 1, a => by
    have hpoll := pollLoop_all_of (o.busy a) p hbc hsl hpr POLL_TIMEOUT_COUNTER 0
    by_cases hst : o.startStatus a = XST_SUCCESS
    · by_cases hto : (pollLoop (o.busy a) POLL_TIMEOUT_COUNTER 0).2.1 = 0
      · have htr : (serviceLoop o (f + 1) a).1 =
            Action.startTransfer o.txBufferAddr (IMG_LENGTH * 4)
              Direction.dmaToDevice ::
            (pollLoop (o.busy a) POLL_TIMEOUT_COUNTER 0).1 ++
            [Action.print Event.transferTimedOut] := by
          simp [serviceLoop, hst, hto]
        rw [htr]
        simp [List.all_cons, List.all_append, hsta, hpr, hpoll]
      · have hrec := serviceLoop_all_of o p hpr hsta hbc hsl f (a + 1)
        have htr : (serviceLoop o (f + 1) a).1 =
            Action.startTransfer o.txBufferAddr (IMG_LENGTH * 4)
              Direction.dmaToDevice ::
            (pollLoop (o.busy a) POLL_TIMEOUT_COUNTER 0).1 ++
            Action.print Event.imageSent :: (serviceLoop o f (a + 1)).1 := by
          simp [serviceLoop, hst, hto]
        rw [htr]
        simp [List.all_cons, List.all_append, hsta, hpr, hpoll, hrec]
    · have htr : (serviceLoop o (f + 1) a).1 =
          [Action.startTransfer o.txBufferAddr (IMG_LENGTH * 4)
              Direction.dmaToDevice,
            Action.print (Event.transferFailed (o.startStatus a))] := by
        simp [serviceLoop, hst]
      rw [htr]
      simp [List.all_cons, hsta, hpr]

theorem startOk_start (addr : Nat) :
    startOk addr (Action.startTransfer addr (IMG_LENGTH * 4)
      Direction.dmaToDevice) = true := by
  have h : IMG_LENGTH * 4 = 692224 := rfl
  simp [startOk, h]

/-- C7: every `start_transfer` call in any run uses the staging buffer's base
address, the byte length `IMG_LENGTH * sizeof(uint32_t)` — which equals
173,056 × 4 = 692,224 bytes — and the memory-to-device direction; since this
holds of every start action in the trace, every loop iteration passes the
same arguments. -/
theorem C7_start_args_constant (o : Oracle) (fuel : Nat) :
    (((runMain o fuel).1).all (startOk o.txBufferAddr)) = true ∧
    IMG_LENGTH * 4 = 692224 := by
  refine ⟨?_, rfl⟩
  by_cases hc : o.configFound = false
  · have htr : (runMain o fuel).1 =
        [Action.print Event.welcome, Action.print Event.configLookupFailed] := by
      simp [runMain, hc]
    rw [htr]
    rfl
  · by_cases hi : o.initStatus = XST_SUCCESS
    · have htr : (runMain o fuel).1 =
          (Action.print Event.welcome ::
            Action.print (Event.initSuccess o.initStatus) ::
            copyActions o.hex_values) ++
          Action.flushRange o.txBufferAddr (IMG_LENGTH * 4) ::
          (serviceLoop o fuel 0).1 := by
        simp [runMain, hc, hi]
      rw [htr, List.all_append, List.all_cons, List.all_cons, List.all_cons]
      rw [copyActions, copyFrom_all_of o.hex_values (startOk o.txBufferAddr)
        (fun _ _ => rfl) IMG_LENGTH 0]
      rw [serviceLoop_all_of o (startOk o.txBufferAddr) (fun _ => rfl)
        (startOk_start o.txBufferAddr) (fun _ => rfl) (fun _ => rfl) fuel 0]
      rfl
    · have htr : (runMain o fuel).1 =
          [Action.print Event.welcome,
            Action.print (Event.initFailed o.initStatus)] := by
        simp [runMain, hc, hi]
      rw [htr]
      rfl

/-! ### Early-failure behaviour and exit codes -/

/-- C8: when the configuration lookup reports "not found", the run consists
of the welcome banner and the single `dma_config_missing` report, and the
process halts with `XST_FAILURE`: no initialization report, no buffer write,
no flush and no transfer action ever occurs. -/
theorem C8_config_missing_halts (o : Oracle) (fuel : Nat)
    (hc : o.configFound = false) :
    runMain o fuel =
      ([Action.print Event.welcome, Action.print Event.configLookupFailed],
        some XST_FAILURE) := by
  simp [runMain, hc]

theorem C8_config_missing_halts_witness :
    runMain oracleNoConfig 5 =
      ([Action.print Event.welcome, Action.print Event.configLookupFailed],
        some XST_FAILURE) :=
  C8_config_missing_halts oracleNoConfig 5 rfl

/-- C9: `main` never returns the success code 0: for every environment and
any number of loop iterations, the run either is still inside the service
loop (no exit code yet — the loop has no normal exit) or has exited with
`XST_FAILURE`; the idle loop and `return 0` after the service loop are
unreachable because the service loop can only be left through a failure
return. -/
theorem C9_never_returns_success (o : Oracle) (fuel : Nat) :
    (runMain o fuel).2 = none ∨ (runMain o fuel).2 = some XST_FAILURE := by
  rcases runMain_spec o fuel with ⟨h, _⟩ | ⟨_, _, _, h, _, _⟩
  · exact Or.inl h
  · exact Or.inr h

/-- C10: if the configuration lookup or the DMA initialization fails, the
program exits with the staging buffer never written (all cells still
unpopulated) and with no `start_transfer` ever issued. -/
theorem C10_early_exit_state_untouched (o : Oracle) (fuel : Nat)
    (h : o.configFound = false ∨ o.initStatus ≠ XST_SUCCESS) :
    countWrites (runMain o fuel).1 = 0 ∧
    countStarts (runMain o fuel).1 = 0 ∧
    ∀ i, applyWrites (runMain o fuel).1 emptyBuf i = none := by
  rcases h with hc | hi
  · have htr : (runMain o fuel).1 =
        [Action.print Event.welcome, Action.print Event.configLookupFailed] := by
      simp [runMain, hc]
    rw [htr]
    exact ⟨rfl, rfl, fun _ => rfl⟩
  · by_cases hc : o.configFound = false
    · have htr : (runMain o fuel).1 =
          [Action.print Event.welcome, Action.print Event.configLookupFailed] := by
        simp [runMain, hc]
      rw [htr]
      exact ⟨rfl, rfl, fun _ => rfl⟩
    · have htr : (runMain o fuel).1 =
          [Action.print Event.welcome,
            Action.print (Event.initFailed o.initStatus)] := by
        simp [runMain, hc, hi]
      rw [htr]
      exact ⟨rfl, rfl, fun _ => rfl⟩

theorem C10_early_exit_state_untouched_witness :
    countWrites (runMain oracleNoConfig 2).1 = 0 ∧
    countStarts (runMain oracleNoConfig 2).1 = 0 ∧
    ∀ i, applyWrites (runMain oracleNoConfig 2).1 emptyBuf i = none :=
  C10_early_exit_state_untouched oracleNoConfig 2 (Or.inl rfl)

end ZCU102
